import Mathlib

/-!
Verification development for the federal-grant-reporting repository.

The repository consists of two Python source files:
  - single-audit/distiller/views.py : a Selenium-driven search-and-download
    workflow against the Federal Audit Clearinghouse, plus pandas-based
    agency-level aggregation;
  - single-audit/resolve_findings/models.py : Django models and the CFDA
    number validator.

This file gives a shallow embedding of the data model and the operations of
those two files, and proves (or refutes) the frozen claims about them.
Browser and file-system effects are embedded as explicit event traces and
time-indexed sources, so every definition is executable.
-/

/-! ## CFDA validator (resolve_findings/models.py, lines 8-14 and 43-47)

`validate_cfda_number(number)` raises `ValidationError` when
`len(str(number)) != 5`.  We embed Python's `str` on `int` as `pyStr`
(a minus sign for negatives followed by the decimal digits) and the
validator as an `Except` value. -/

/-- Decimal digit characters of a natural number, most significant first;
embeds the digits of Python `str(n)` for `n >= 0`. -/
def natDigits (n : Nat) : List Char :=
  if _h : n < 10 then [Nat.digitChar n]
  else natDigits (n / 10) ++ [Nat.digitChar (n % 10)]
decreasing_by exact Nat.div_lt_self (by omega) (by omega)

/-- Python `str` on an integer: a leading minus sign for negative numbers,
then the decimal digits. -/
def pyStr (n : Int) : String :=
  if n < 0 then String.mk ('-' :: natDigits n.natAbs)
  else String.mk (natDigits n.toNat)

/-- `validate_cfda_number` (models.py lines 8-14): raise `ValidationError`
when the decimal string of the argument does not have length 5. -/
def validate_cfda_number (number : Int) : Except String Unit :=
  if (pyStr number).length ≠ 5 then
    .error "ValidationError: A CFDA number must have five digits."
  else
    .ok ()

/-- The validator list attached to `Grant.cfda` (models.py lines 45-47):
`validators=[validate_cfda_number]` and nothing else. -/
def grant_cfda_validators : List (Int → Except String Unit) :=
  [validate_cfda_number]

/-! ### Digit-length lemmas -/

theorem natDigits_len_1 (n : Nat) (h : n ≤ 9) : (natDigits n).length = 1 := by
  rw [natDigits]
  rw [dif_pos (by omega)]
  rfl

theorem natDigits_len_2 (n : Nat) (h1 : 10 ≤ n) (h2 : n ≤ 99) :
    (natDigits n).length = 2 := by
  rw [natDigits]
  rw [dif_neg (by omega)]
  rw [List.length_append, natDigits_len_1 (n / 10) (by omega)]
  rfl

theorem natDigits_len_3 (n : Nat) (h1 : 100 ≤ n) (h2 : n ≤ 999) :
    (natDigits n).length = 3 := by
  rw [natDigits]
  rw [dif_neg (by omega)]
  rw [List.length_append, natDigits_len_2 (n / 10) (by omega) (by omega)]
  rfl

theorem natDigits_len_4 (n : Nat) (h1 : 1000 ≤ n) (h2 : n ≤ 9999) :
    (natDigits n).length = 4 := by
  rw [natDigits]
  rw [dif_neg (by omega)]
  rw [List.length_append, natDigits_len_3 (n / 10) (by omega) (by omega)]
  rfl

theorem natDigits_len_5 (n : Nat) (h1 : 10000 ≤ n) (h2 : n ≤ 99999) :
    (natDigits n).length = 5 := by
  rw [natDigits]
  rw [dif_neg (by omega)]
  rw [List.length_append, natDigits_len_4 (n / 10) (by omega) (by omega)]
  rfl

theorem pyStr_length_nonneg (n : Int) (h : 0 ≤ n) :
    (pyStr n).length = (natDigits n.toNat).length := by
  rw [pyStr, if_neg (by omega)]
  rfl

theorem pyStr_length_neg (n : Int) (h : n < 0) :
    (pyStr n).length = 1 + (natDigits n.natAbs).length := by
  rw [pyStr, if_pos h]
  simp [String.length]
  omega

/-! ## Dates (views.py lines 36-65; Python `datetime.date` arithmetic)

`_calculate_start_date` subtracts a `timedelta` from an end date and
formats the result with `strftime("%m/%d/%Y")`.  A Python `date` stores
year, month and day; we embed `d - timedelta(n)` as `n` applications of
the previous-day function `predDate`, and relate it to the proleptic
Gregorian ordinal (Python's `date.toordinal`) below. -/

/-- Gregorian leap-year test, as in Python `calendar.isleap`. -/
def isLeapYear (y : Nat) : Bool :=
  (y % 4 == 0 && y % 100 != 0) || y % 400 == 0

/-- Number of days in month `m` of year `y`. -/
def daysInMonth (y m : Nat) : Nat :=
  if m = 2 then (if isLeapYear y then 29 else 28)
  else if m = 4 ∨ m = 6 ∨ m = 9 ∨ m = 11 then 30
  else 31

/-- Days in year `y` strictly before month `m`, ignoring leap years. -/
def daysBeforeMonthBase (m : Nat) : Nat :=
  match m with
  | 1 => 0 | 2 => 31 | 3 => 59 | 4 => 90 | 5 => 120 | 6 => 151
  | 7 => 181 | 8 => 212 | 9 => 243 | 10 => 273 | 11 => 304 | 12 => 334
  | _ => 0

/-- Days in year `y` strictly before month `m`. -/
def daysBeforeMonth (y m : Nat) : Nat :=
  daysBeforeMonthBase m + (if 3 ≤ m ∧ isLeapYear y = true then 1 else 0)

/-- A Python `datetime.date`: year, month, day fields. -/
structure PyDate where
  year : Nat
  month : Nat
  day : Nat
deriving DecidableEq, Repr

/-- Field validity of a `datetime.date` (Python enforces this on
construction). -/
def validDate (d : PyDate) : Prop :=
  1 ≤ d.year ∧ 1 ≤ d.month ∧ d.month ≤ 12 ∧ 1 ≤ d.day ∧
    d.day ≤ daysInMonth d.year d.month

instance (d : PyDate) : Decidable (validDate d) := by
  unfold validDate; infer_instance

/-- Python `date.toordinal`: day 1 is January 1 of year 1 in the proleptic
Gregorian calendar. -/
def toOrdinal (d : PyDate) : Nat :=
  365 * (d.year - 1) + (d.year - 1) / 4 - (d.year - 1) / 100 + (d.year - 1) / 400
    + daysBeforeMonth d.year d.month + d.day

/-- The previous calendar day. -/
def predDate (d : PyDate) : PyDate :=
  if 2 ≤ d.day then ⟨d.year, d.month, d.day - 1⟩
  else if 2 ≤ d.month then ⟨d.year, d.month - 1, daysInMonth d.year (d.month - 1)⟩
  else ⟨d.year - 1, 12, 31⟩

/-- Python `d - timedelta(n)` for a non-negative number of days `n`:
`n` applications of the previous-day function. -/
def subDays (d : PyDate) (n : Nat) : PyDate :=
  match n with
  | 0 => d
  | k + 1 => predDate (subDays d k)

/-- Zero-pad a number to two digits, as in `strftime` `%m` and `%d`. -/
def pad2 (n : Nat) : String :=
  if n < 10 then "0" ++ Nat.repr n else Nat.repr n

/-- Zero-pad a year to four digits, as in `strftime` `%Y`. -/
def pad4 (n : Nat) : String :=
  if n < 10 then "000" ++ Nat.repr n
  else if n < 100 then "00" ++ Nat.repr n
  else if n < 1000 then "0" ++ Nat.repr n
  else Nat.repr n

/-- `_format_date_for_fac_fields` (views.py lines 53-65):
`date.strftime("%m/%d/%Y")`, the MM/DD/YYYY form. -/
def _format_date_for_fac_fields (d : PyDate) : String :=
  pad2 d.month ++ "/" ++ pad2 d.day ++ "/" ++ pad4 d.year

/-- `_calculate_start_date` (views.py lines 36-50): subtract
`timedelta(time_difference)` from `end_date` and format the result.
In the Python source the `end_date` parameter has the default
`date.today()`, which is evaluated once at module import time; callers of
this embedding pass that end date explicitly. -/
def _calculate_start_date (time_difference : Nat) (end_date : PyDate) : String :=
  _format_date_for_fac_fields (subDays end_date time_difference)

/-! ### Calendar lemmas -/

theorem isLeapYear_spec (n : Nat) :
    isLeapYear n = true ↔ ((n % 4 = 0 ∧ n % 100 ≠ 0) ∨ n % 400 = 0) := by
  simp [isLeapYear, Bool.or_eq_true, Bool.and_eq_true, beq_iff_eq, bne_iff_ne]

theorem daysInMonth_pos (y m : Nat) : 1 ≤ daysInMonth y m := by
  unfold daysInMonth
  split
  · split <;> omega
  · split <;> omega

theorem daysBeforeMonth_succ (y m : Nat) (h1 : 1 ≤ m) (h2 : m ≤ 11) :
    daysBeforeMonth y m + daysInMonth y m = daysBeforeMonth y (m + 1) := by
  cases hL : isLeapYear y <;>
    interval_cases m <;>
      simp [daysBeforeMonth, daysBeforeMonthBase, daysInMonth, hL]

set_option maxHeartbeats 2000000 in
theorem toOrdinal_year_boundary (y : Nat) (h : 2 ≤ y) :
    toOrdinal ⟨y - 1, 12, 31⟩ + 1 = toOrdinal ⟨y, 1, 1⟩ := by
  obtain ⟨n, rfl⟩ : ∃ n, y = n + 2 := ⟨y - 2, by omega⟩
  have hiff := isLeapYear_spec (n + 1)
  unfold toOrdinal daysBeforeMonth
  dsimp only
  rw [show daysBeforeMonthBase 12 = 334 from rfl,
    show daysBeforeMonthBase 1 = 0 from rfl,
    show ((n : Nat) + 2 - 1) = n + 1 by omega]
  by_cases hL : isLeapYear (n + 1) = true
  · have hfacts := hiff.mp hL
    rw [if_pos (⟨by omega, hL⟩ : 3 ≤ 12 ∧ isLeapYear (n + 1) = true),
      if_neg (fun hc : 3 ≤ 1 ∧ isLeapYear (n + 2) = true => absurd hc.1 (by omega))]
    clear hL hiff
    omega
  · have hfacts : ¬((n + 1) % 4 = 0 ∧ (n + 1) % 100 ≠ 0 ∨ (n + 1) % 400 = 0) :=
      fun hc => hL (hiff.mpr hc)
    rw [if_neg (fun hc : 3 ≤ 12 ∧ isLeapYear (n + 1) = true => hL hc.2),
      if_neg (fun hc : 3 ≤ 1 ∧ isLeapYear (n + 2) = true => absurd hc.1 (by omega))]
    have hImp : (n + 1) % 4 = 0 → (n + 1) % 100 = 0 := fun h4 =>
      Classical.byContradiction (fun h100 => hfacts (Or.inl ⟨h4, h100⟩))
    have hC : (n + 1) % 400 ≠ 0 := fun hc => hfacts (Or.inr hc)
    clear hL hiff hfacts
    omega

theorem toOrdinal_predDate (d : PyDate) (hv : validDate d) (h2 : 2 ≤ toOrdinal d) :
    validDate (predDate d) ∧ toOrdinal (predDate d) + 1 = toOrdinal d := by
  obtain ⟨hy, hm1, hm2, hd1, hd2⟩ := hv
  unfold predDate
  by_cases hday : 2 ≤ d.day
  · rw [if_pos hday]
    refine ⟨⟨hy, hm1, hm2, ?_, Nat.le_trans (Nat.sub_le d.day 1) hd2⟩, ?_⟩
    · show 1 ≤ d.day - 1
      omega
    unfold toOrdinal
    dsimp only
    omega
  · rw [if_neg hday]
    have hd1' : d.day = 1 := by omega
    by_cases hmon : 2 ≤ d.month
    · rw [if_pos hmon]
      have hsucc := daysBeforeMonth_succ d.year (d.month - 1) (by omega) (by omega)
      have hm' : d.month - 1 + 1 = d.month := by omega
      rw [hm'] at hsucc
      refine ⟨⟨hy, ?_, ?_, daysInMonth_pos _ _, Nat.le_refl _⟩, ?_⟩
      · show 1 ≤ d.month - 1
        omega
      · show d.month - 1 ≤ 12
        omega
      unfold toOrdinal
      dsimp only
      omega
    · rw [if_neg hmon]
      have hm' : d.month = 1 := by omega
      have hy2 : 2 ≤ d.year := by
        by_contra hc
        have hy1 : d.year = 1 := by omega
        have hone : toOrdinal d = 1 := by
          unfold toOrdinal daysBeforeMonth
          rw [hy1, hm', hd1']
          rw [show daysBeforeMonthBase 1 = 0 from rfl]
          simp
        omega
      refine ⟨⟨?_, ?_, ?_, ?_,
        Nat.le_of_eq (rfl : (31 : Nat) = daysInMonth (d.year - 1) 12)⟩, ?_⟩
      · show 1 ≤ d.year - 1
        omega
      · show (1 : Nat) ≤ 12
        omega
      · show (12 : Nat) ≤ 12
        omega
      · show (1 : Nat) ≤ 31
        omega
      have hb := toOrdinal_year_boundary d.year hy2
      have hd : d = ⟨d.year, 1, 1⟩ := by
        cases d
        dsimp only at hm' hd1' ⊢
        rw [hm', hd1']
      rw [hd]
      exact hb

theorem subDays_valid_ordinal (d : PyDate) (hv : validDate d) :
    ∀ n, n < toOrdinal d →
      validDate (subDays d n) ∧ toOrdinal (subDays d n) + n = toOrdinal d := by
  intro n
  induction n with
  | zero => intro _; exact ⟨hv, rfl⟩
  | succ k ih =>
    intro hlt
    obtain ⟨hval, hord⟩ := ih (by omega)
    obtain ⟨hval2, hord2⟩ := toOrdinal_predDate (subDays d k) hval (by omega)
    refine ⟨hval2, ?_⟩
    show toOrdinal (predDate (subDays d k)) + (k + 1) = toOrdinal d
    omega

/-- Claim C6: for every fixed reference date D, `_calculate_start_date 90`
with end date D returns the MM/DD/YYYY string of the valid date lying
exactly 90 days (in proleptic-Gregorian-ordinal terms) before D, and
`_calculate_start_date` with `time_difference = 0` returns D formatted
identically. -/
theorem c6_calculate_start_date (D : PyDate) (hv : validDate D)
    (h90 : 90 < toOrdinal D) :
    _calculate_start_date 90 D = _format_date_for_fac_fields (subDays D 90)
    ∧ validDate (subDays D 90)
    ∧ toOrdinal (subDays D 90) + 90 = toOrdinal D
    ∧ _calculate_start_date 0 D = _format_date_for_fac_fields D := by
  obtain ⟨hval, hord⟩ := subDays_valid_ordinal D hv 90 h90
  exact ⟨rfl, hval, hord, rfl⟩

set_option maxRecDepth 10000 in
/-- Witness for C6 at the concrete date 2020-03-15: ninety days earlier is
2019-12-16, and the zero-difference call returns 03/15/2020. -/
theorem c6_witness :
    _calculate_start_date 90 ⟨2020, 3, 15⟩ = "12/16/2019"
    ∧ _calculate_start_date 0 ⟨2020, 3, 15⟩ = "03/15/2020" := by
  have h := c6_calculate_start_date ⟨2020, 3, 15⟩ (by decide) (by decide)
  exact ⟨h.1.trans (by decide), h.2.2.2.trans (by decide)⟩

/-! ## Download completion waiter (views.py lines 86-105 and 396)

`list_completed_chrome_downloads` runs a script in the browser download
page: if every download item is in state COMPLETE it returns the list of
file URLs, otherwise the script returns `undefined` (embedded as `none`).
`WebDriverWait(driver, 500, 1).until(...)` polls that method once per time
unit: it returns the first truthy value (a non-empty list; the empty list
is falsy in Python) and raises `TimeoutException` when the budget is
exhausted.  The browser download state is embedded as a time-indexed list
of items, and the poll budget as structural fuel. -/

/-- One entry of `downloads.Manager.get().items_`. -/
structure ChromeDownloadItem where
  state : String
  fileUrl : String
deriving DecidableEq, Repr

/-- `list_completed_chrome_downloads` (views.py lines 86-105): the file
URLs when every item is COMPLETE, and `None` (the script's `undefined`)
otherwise. -/
def list_completed_chrome_downloads (items : List ChromeDownloadItem) :
    Option (List String) :=
  if items.all (fun e => e.state == "COMPLETE") then
    some (items.map (fun e => e.fileUrl))
  else
    none

/-- `WebDriverWait(driver, timeout, 1).until(list_completed_chrome_downloads)`:
poll at time `t`; a truthy (non-empty) result is returned together with the
poll index, a falsy result consumes one unit of fuel, and exhausted fuel
raises `TimeoutException`. -/
def webdriver_wait_until (source : Nat → List ChromeDownloadItem) :
    Nat → Nat → Except String (Nat × List String)
  | 0, t =>
    match list_completed_chrome_downloads (source t) with
    | some l => if l.isEmpty then .error "TimeoutException" else .ok (t, l)
    | none => .error "TimeoutException"
  | fuel + 1, t =>
    match list_completed_chrome_downloads (source t) with
    | some l =>
      if l.isEmpty then webdriver_wait_until source fuel (t + 1)
      else .ok (t, l)
    | none => webdriver_wait_until source fuel (t + 1)

/-! ## Per-page file downloads (views.py lines 156-263)

`download_one_set_of_result_files(driver, file_type)` walks the 25
candidate link slots `lnkbutton{Form|Audit}_0 .. _24`.  The element lookup
sits inside a `try` whose `except` merely constructs (and discards) an
`Exception`, but `download_link.click()` sits *outside* the `try`: a
missing slot therefore re-clicks whatever element the local variable
`download_link` last held, and if no slot was ever found the first click
raises a `NameError` (unbound local).  The loop state is the optional
last-found element and the list of clicks performed. -/

/-- A Python-level outcome: a normal return or an uncaught exception. -/
inductive PyResult (α : Type) where
  | ok (a : α)
  | exn (msg : String)
deriving DecidableEq, Repr

/-- The two per-category link sets of one results page: which of the 25
slots actually carry a link. -/
structure ResultsPage where
  formPresent : Nat → Bool
  auditPresent : Nat → Bool

/-- The slot loop of `download_one_set_of_result_files` (views.py lines
250-261).  `download_link` is the current value of the Python local of the
same name; each iteration looks the slot up (swallowing the lookup
failure) and then unconditionally clicks the current value. -/
def downloadOneSetLoop (present : Nat → Bool) (idBase : String) :
    List Nat → Option String → List String → PyResult (List String)
  | [], _, clicks => .ok clicks
  | i :: rest, download_link, clicks =>
    let found := if present i then some (idBase ++ "_" ++ Nat.repr i)
                 else download_link
    match found with
    | Option.none => .exn "NameError"
    | some link => downloadOneSetLoop present idBase rest (some link)
        (clicks ++ [link])

/-- `download_one_set_of_result_files` (views.py lines 193-263): dispatch
on the file type ('SF-SAC' → Form links, 'PDF' → Audit links, anything
else returns False), then run the 25-slot loop.  The Boolean is the
Python return value; the list is the sequence of clicked element ids. -/
def download_one_set_of_result_files (page : ResultsPage) (file_type : String) :
    PyResult (Bool × List String) :=
  let grid := "MainContent_ucA133SearchResults_ResultsGrid_lnkbutton"
  if file_type == "SF-SAC" then
    match downloadOneSetLoop page.formPresent (grid ++ "Form")
        (List.range 25) Option.none [] with
    | .ok clicks => .ok (true, clicks)
    | .exn m => .exn m
  else if file_type == "PDF" then
    match downloadOneSetLoop page.auditPresent (grid ++ "Audit")
        (List.range 25) Option.none [] with
    | .ok clicks => .ok (true, clicks)
    | .exn m => .exn m
  else .ok (false, [])

/-- Number of clicks a `download_one_set_of_result_files` run performed
before returning (zero for an uncaught exception). -/
def resultClickCount : PyResult (Bool × List String) → Nat
  | .ok (_, clicks) => clicks.length
  | .exn _ => 0

/-- A results page whose Form category has exactly one link, in slot 0,
and whose Audit category has no links at all. -/
def onlySlotZeroPage : ResultsPage :=
  ⟨fun i => i == 0, fun _ => false⟩

/-! ## Agency-level aggregation (views.py lines 421-508)

`filter_general_table_by_agency` reads `gen18.txt` into a dataframe and
keeps the rows whose COGAGENCY equals the requested agency code;
`__get_findings` keeps the rows with CYFINDINGS == 'Y';
`derive_agency_highlights` reports the two row counts.  The dataframe is
embedded as an in-memory list of rows (the CSV read is the I/O boundary). -/

/-- One row of the gen18.txt table: the cognizant-agency code and the
current-year-findings flag. -/
structure GenRow where
  cogagency : String
  cyfindings : String
deriving DecidableEq, Repr

/-- The row filter of `filter_general_table_by_agency` (views.py lines
460-468): `df.loc[df['COGAGENCY'] == agency_prefix]`. -/
def filter_general_table_by_agency (agencyCode : String) (df : List GenRow) :
    List GenRow :=
  df.filter (fun row => row.cogagency == agencyCode)

/-- `__get_findings` (views.py lines 421-440):
`agency_df.loc[agency_df['CYFINDINGS'] == 'Y']`. -/
def get_findings_rows (agency_df : List GenRow) : List GenRow :=
  agency_df.filter (fun row => row.cyfindings == "Y")

/-- `__get_number_of_findings` (views.py lines 443-457). -/
def get_number_of_findings (agency_df : List GenRow) : Nat :=
  (get_findings_rows agency_df).length

/-- The `results` dictionary of `derive_agency_highlights`. -/
structure AgencyHighlights where
  agencyCode : String
  cognizant_sum : Nat
  findings : Nat
deriving DecidableEq, Repr

/-- `derive_agency_highlights` (views.py lines 494-508): filter the table
by agency code, then report the filtered row count and the findings
count. -/
def derive_agency_highlights (agencyCode : String) (df : List GenRow) :
    AgencyHighlights :=
  let agency_df := filter_general_table_by_agency agencyCode df
  { agencyCode := agencyCode
    cognizant_sum := agency_df.length
    findings := get_number_of_findings agency_df }

/-- The ten-row table of the claim: three rows carry cognizant-agency
code "20", two of those have the findings flag set. -/
def sampleGenTable : List GenRow :=
  [⟨"20", "Y"⟩, ⟨"15", "N"⟩, ⟨"20", "N"⟩, ⟨"84", "Y"⟩, ⟨"20", "Y"⟩,
   ⟨"15", "Y"⟩, ⟨"84", "N"⟩, ⟨"93", "N"⟩, ⟨"93", "Y"⟩, ⟨"10", "N"⟩]

/-! ## The search-and-download workflow (views.py lines 108-153, 266-402)

`download_files_from_fac(agency_prefix, subagency_extension)` normalises
its arguments, drives the remote search form, pages through the results
downloading the linked files of each page, waits for the downloads and
returns an HttpResponse.  Browser actions are embedded as an event trace;
the simulated result set has `totalPages` pages and the simulated download
manager is a time-indexed item list.  The module-import day and the
call day are distinct parameters because the Python default argument
`end_date=date.today()` of `_calculate_start_date` is evaluated once, at
module import. -/

/-- A Python value as far as the argument normalisation of
`download_files_from_fac` is concerned: `None`, a string, or something
of another type. -/
inductive PyVal where
  | pynone
  | str (s : String)
  | intval (n : Int)
deriving DecidableEq, Repr

/-- Lines 290-291: `if agency_prefix is None or type(agency_prefix) is not
str: agency_prefix = DEPT_OF_TRANSPORTATION_PREFIX` — every non-string is
silently replaced by "20"; every string, matching the two-digit pattern or
not, is kept. -/
def normalize_agency_code : PyVal → String
  | .str s => s
  | _ => "20"

/-- One observable action of the workflow. -/
inductive FacStep where
  | checkChromedriver
  | startChrome
  | netGet (url : String)
  | click (elemId : String)
  | clearField (elemId : String)
  | sendKeys (elemId : String) (text : String)
  | sendReturnKey (elemId : String)
  | selectByValue (elemId : String) (v : String)
  | findElement (elemId : String)
  | navigate (page : Nat)
  | downloadAll (page : Nat)
  | validationFailure (msg : String)
deriving DecidableEq, Repr

/-- The fixed search endpoint (views.py line 33). -/
def FAC_URL : String := "https://harvester.census.gov/facdissem/SearchA133.aspx"

/-- Lines 289-366 of `download_files_from_fac`: argument normalisation and
the scripted form-filling sequence up to the I-Agree continue button.
`importDate` is the day views.py was imported (the once-evaluated
`date.today()` default of `_calculate_start_date`); `callDate` is the day
of the call, used for the explicit `date.today() - timedelta(1)` at line
319. -/
def fac_form_steps (agencyArg : PyVal) (subagencyArg : Option String)
    (importDate callDate : PyDate) : List FacStep :=
  let agencyCode := normalize_agency_code agencyArg
  let subagencyExt := subagencyArg.getD "5"
  let from_date := _calculate_start_date 90 importDate
  let to_date := _format_date_for_fac_fields (subDays callDate 1)
  [ .checkChromedriver,
    .startChrome,
    .netGet FAC_URL,
    .click "ui-id-1",
    .findElement "MainContent_UcSearchFilters_DateProcessedControl_FromDate",
    .clearField "MainContent_UcSearchFilters_DateProcessedControl_FromDate",
    .sendKeys "MainContent_UcSearchFilters_DateProcessedControl_FromDate" from_date,
    .sendReturnKey "MainContent_UcSearchFilters_DateProcessedControl_FromDate",
    .findElement "MainContent_UcSearchFilters_DateProcessedControl_ToDate",
    .clearField "MainContent_UcSearchFilters_DateProcessedControl_ToDate",
    .sendKeys "MainContent_UcSearchFilters_DateProcessedControl_ToDate" to_date,
    .sendReturnKey "MainContent_UcSearchFilters_DateProcessedControl_ToDate",
    .click "ui-id-5",
    .findElement "MainContent_UcSearchFilters_CDFASelectionControl_SelectionControlTable",
    .selectByValue "cfdaPrefix" agencyCode,
    .findElement "cfdaExt",
    .clearField "cfdaExt",
    .sendKeys "cfdaExt" subagencyExt,
    .click "cfdaContains",
    .click "btnAdd",
    .findElement "MainContent_UcSearchFilters_Panel4",
    .click "MainContent_UcSearchFilters_btnSearch_bottom",
    .click "chkAgree",
    .click "btnIAgree" ]

/-- `get_next_pager_link` (views.py lines 108-153) over a simulated
result grid of `totalPages` pages: the lookup
`pager.find_element_by_link_text(str(page_index + 1))` resolves exactly
when a page with that number exists; on failure every exception is
swallowed and the function returns False (here `none`). -/
def get_next_pager_link (totalPages page_index : Nat) : Option Nat :=
  if page_index + 1 ≤ totalPages then some (page_index + 1) else none

/-- The pager while-loop of `download_files_from_fac` (views.py lines
375-392): while a next-page link resolves, click it and download the new
page's files.  The loop is bounded only by the end-of-results condition;
in this simulated model the page count is finite, and the structural fuel
is unreachable whenever `fuel ≥ totalPages - current` (proved below). -/
def fac_pager_loop (totalPages : Nat) : Nat → Nat → List FacStep
  | 0, _ => []
  | fuel + 1, current =>
    match get_next_pager_link totalPages current with
    | some nxt => .navigate nxt :: .downloadAll nxt ::
        fac_pager_loop totalPages fuel nxt
    | none => []

/-- Lines 373-392: the unconditional first-page download followed by the
pager loop, started at page index 1. -/
def fac_pager_trace (totalPages : Nat) : List FacStep :=
  .downloadAll 1 :: fac_pager_loop totalPages totalPages 1

/-- The observable outcome of one `download_files_from_fac` call: the
browser-action trace, whether `driver.quit()` ran, and the returned
HttpResponse or the uncaught exception. -/
structure FacRun where
  trace : List FacStep
  quitCalled : Bool
  response : Except String String

/-- `download_files_from_fac` (views.py lines 266-402): form filling, the
pager loop, then `WebDriverWait(driver, 500, 1).until(...)`; on a truthy
path list the driver is quit (line 398-399: `if paths: driver.quit()`)
and the success HttpResponse is returned; an uncaught `TimeoutException`
propagates to the caller with no `driver.quit()` on the way out. -/
def download_files_from_fac (agencyArg : PyVal) (subagencyArg : Option String)
    (importDate callDate : PyDate) (totalPages : Nat)
    (source : Nat → List ChromeDownloadItem) : FacRun :=
  let steps := fac_form_steps agencyArg subagencyArg importDate callDate
    ++ fac_pager_trace totalPages
  match webdriver_wait_until source 500 0 with
  | .error e => { trace := steps, quitCalled := false, response := .error e }
  | .ok (_, paths) =>
      { trace := steps
        quitCalled := !paths.isEmpty
        response := .ok "Your download has completed." }

/-- Recogniser for download events in a trace. -/
def isDownloadAll : FacStep → Bool
  | .downloadAll _ => true
  | _ => false

/-- Recogniser for validation-failure events in a trace. -/
def isValidationFailure : FacStep → Bool
  | .validationFailure _ => true
  | _ => false

/-! ### Waiter lemmas -/

theorem map_fileUrl_isEmpty (l : List ChromeDownloadItem)
    (h : l.isEmpty = false) :
    (l.map (fun e => e.fileUrl)).isEmpty = false := by
  cases l with
  | nil => simp at h
  | cons a t => rfl

theorem wait_truthy (source : Nat → List ChromeDownloadItem) (fuel t : Nat)
    (hall : (source t).all (fun e => e.state == "COMPLETE") = true)
    (hne : (source t).isEmpty = false) :
    webdriver_wait_until source fuel t
      = .ok (t, (source t).map (fun e => e.fileUrl)) := by
  have hcomp : list_completed_chrome_downloads (source t)
      = some ((source t).map (fun e => e.fileUrl)) := by
    unfold list_completed_chrome_downloads
    rw [hall]
    rfl
  cases fuel with
  | zero =>
    rw [webdriver_wait_until, hcomp]
    dsimp only
    rw [map_fileUrl_isEmpty (source t) hne]
    rfl
  | succ f =>
    rw [webdriver_wait_until, hcomp]
    dsimp only
    rw [map_fileUrl_isEmpty (source t) hne]
    rfl

theorem wait_step_falsy (source : Nat → List ChromeDownloadItem) (fuel t : Nat)
    (h : (source t).all (fun e => e.state == "COMPLETE") = false
      ∨ (source t).isEmpty = true) :
    webdriver_wait_until source (fuel + 1) t
      = webdriver_wait_until source fuel (t + 1) := by
  rw [webdriver_wait_until]
  rcases h with h | h
  · rw [show list_completed_chrome_downloads (source t) = none by
      unfold list_completed_chrome_downloads
      rw [h]
      rfl]
  · have hnil : source t = [] := List.isEmpty_iff.mp h
    rw [show list_completed_chrome_downloads (source t) = some [] by
      rw [hnil]
      rfl]
    rfl

theorem wait_zero_falsy (source : Nat → List ChromeDownloadItem) (t : Nat)
    (h : (source t).all (fun e => e.state == "COMPLETE") = false
      ∨ (source t).isEmpty = true) :
    webdriver_wait_until source 0 t = .error "TimeoutException" := by
  rw [webdriver_wait_until]
  rcases h with h | h
  · rw [show list_completed_chrome_downloads (source t) = none by
      unfold list_completed_chrome_downloads
      rw [h]
      rfl]
  · have hnil : source t = [] := List.isEmpty_iff.mp h
    rw [show list_completed_chrome_downloads (source t) = some [] by
      rw [hnil]
      rfl]
    rfl

theorem wait_never_complete (source : Nat → List ChromeDownloadItem) :
    ∀ fuel t,
      (∀ u, t ≤ u → u ≤ t + fuel →
        (source u).all (fun e => e.state == "COMPLETE") = false) →
      webdriver_wait_until source fuel t = .error "TimeoutException" := by
  intro fuel
  induction fuel with
  | zero =>
    intro t h
    exact wait_zero_falsy source t (Or.inl (h t (Nat.le_refl t) (by omega)))
  | succ f ih =>
    intro t h
    rw [wait_step_falsy source f t (Or.inl (h t (Nat.le_refl t) (by omega)))]
    exact ih (t + 1) (fun u hu1 hu2 => h u (by omega) (by omega))

theorem wait_ok_nonempty (source : Nat → List ChromeDownloadItem) :
    ∀ fuel t u l, webdriver_wait_until source fuel t = .ok (u, l) →
      l.isEmpty = false := by
  intro fuel
  induction fuel with
  | zero =>
    intro t u l h
    rw [webdriver_wait_until] at h
    rcases hm : list_completed_chrome_downloads (source t) with _ | l2
    · rw [hm] at h
      dsimp only at h
      exact absurd h (by simp)
    · rw [hm] at h
      dsimp only at h
      by_cases he : l2.isEmpty = true
      · rw [if_pos he] at h
        exact absurd h (by simp)
      · rw [if_neg he] at h
        cases h
        simpa using he
  | succ f ih =>
    intro t u l h
    rw [webdriver_wait_until] at h
    rcases hm : list_completed_chrome_downloads (source t) with _ | l2
    · rw [hm] at h
      dsimp only at h
      exact ih (t + 1) u l h
    · rw [hm] at h
      dsimp only at h
      by_cases he : l2.isEmpty = true
      · rw [if_pos he] at h
        exact ih (t + 1) u l h
      · rw [if_neg he] at h
        cases h
        simpa using he

theorem wait_reaches_first_truthy (source : Nat → List ChromeDownloadItem)
    (n : Nat)
    (hall : (source n).all (fun e => e.state == "COMPLETE") = true)
    (hne : (source n).isEmpty = false) :
    ∀ fuel t, t ≤ n → n ≤ t + fuel →
      (∀ m, t ≤ m → m < n →
        ((source m).all (fun e => e.state == "COMPLETE") = false
          ∨ (source m).isEmpty = true)) →
      webdriver_wait_until source fuel t
        = .ok (n, (source n).map (fun e => e.fileUrl)) := by
  intro fuel
  induction fuel with
  | zero =>
    intro t h1 h2 h3
    have ht : t = n := by omega
    subst ht
    exact wait_truthy source 0 t hall hne
  | succ f ih =>
    intro t h1 h2 h3
    by_cases htn : t = n
    · subst htn
      exact wait_truthy source (f + 1) t hall hne
    · have hlt : t < n := by omega
      rw [wait_step_falsy source f t (h3 t (Nat.le_refl t) hlt)]
      exact ih (t + 1) (by omega) (by omega)
        (fun m hm1 hm2 => h3 m (by omega) hm2)

/-! ### Pager-loop lemmas -/

theorem fac_pager_loop_count (K : Nat) :
    ∀ fuel current, K - current ≤ fuel →
      (fac_pager_loop K fuel current).countP isDownloadAll = K - current := by
  intro fuel
  induction fuel with
  | zero =>
    intro c h
    rw [fac_pager_loop]
    simp
    omega
  | succ f ih =>
    intro c h
    rw [fac_pager_loop]
    unfold get_next_pager_link
    by_cases hc : c + 1 ≤ K
    · rw [if_pos hc]
      dsimp only
      rw [List.countP_cons, List.countP_cons, ih (c + 1) (by omega)]
      simp [isDownloadAll]
      omega
    · rw [if_neg hc]
      simp
      omega

theorem fac_pager_loop_mem (K : Nat) :
    ∀ fuel current st, st ∈ fac_pager_loop K fuel current →
      ∃ p, (st = .navigate p ∨ st = .downloadAll p) ∧ current < p ∧ p ≤ K := by
  intro fuel
  induction fuel with
  | zero =>
    intro c st h
    rw [fac_pager_loop] at h
    simp at h
  | succ f ih =>
    intro c st h
    rw [fac_pager_loop] at h
    unfold get_next_pager_link at h
    by_cases hc : c + 1 ≤ K
    · rw [if_pos hc] at h
      dsimp only at h
      rw [List.mem_cons, List.mem_cons] at h
      rcases h with h | h | h
      · exact ⟨c + 1, Or.inl h, by omega, hc⟩
      · exact ⟨c + 1, Or.inr h, by omega, hc⟩
      · obtain ⟨p, hp, h1, h2⟩ := ih (c + 1) st h
        exact ⟨p, hp, by omega, h2⟩
    · rw [if_neg hc] at h
      simp at h

/-! ### Trace decomposition lemmas -/

theorem fac_form_steps_no_download (a : PyVal) (s : Option String)
    (d1 d2 : PyDate) :
    (fac_form_steps a s d1 d2).countP isDownloadAll = 0 := by
  simp [fac_form_steps, List.countP_cons, isDownloadAll]

theorem fac_form_steps_no_validation (a : PyVal) (s : Option String)
    (d1 d2 : PyDate) :
    (fac_form_steps a s d1 d2).countP isValidationFailure = 0 := by
  simp [fac_form_steps, List.countP_cons, isValidationFailure]

theorem navigate_not_in_form (a : PyVal) (s : Option String)
    (d1 d2 : PyDate) (p : Nat) :
    FacStep.navigate p ∉ fac_form_steps a s d1 d2 := by
  simp [fac_form_steps]

theorem fac_run_trace (a : PyVal) (s : Option String) (d1 d2 : PyDate)
    (K : Nat) (src : Nat → List ChromeDownloadItem) :
    (download_files_from_fac a s d1 d2 K src).trace
      = fac_form_steps a s d1 d2 ++ fac_pager_trace K := by
  unfold download_files_from_fac
  split <;> rfl

theorem fac_run_wait_error (a : PyVal) (s : Option String) (d1 d2 : PyDate)
    (K : Nat) (src : Nat → List ChromeDownloadItem) (e : String)
    (h : webdriver_wait_until src 500 0 = .error e) :
    (download_files_from_fac a s d1 d2 K src).quitCalled = false
    ∧ (download_files_from_fac a s d1 d2 K src).response = .error e := by
  unfold download_files_from_fac
  rw [h]
  exact ⟨rfl, rfl⟩

theorem fac_run_wait_ok (a : PyVal) (s : Option String) (d1 d2 : PyDate)
    (K : Nat) (src : Nat → List ChromeDownloadItem) (u : Nat) (l : List String)
    (h : webdriver_wait_until src 500 0 = .ok (u, l)) :
    (download_files_from_fac a s d1 d2 K src).quitCalled = !l.isEmpty
    ∧ (download_files_from_fac a s d1 d2 K src).response
        = .ok "Your download has completed." := by
  unfold download_files_from_fac
  rw [h]
  exact ⟨rfl, rfl⟩

/-! ## Claim theorems -/

/-- Claim C1 (refuted; the click sits outside the try block): on a page
whose Form category has exactly one link, in slot 0, the slot loop
performs 25 clicks — the stale slot-0 element is re-clicked for each of
the 24 missing slots — instead of 1 click and 24 silent skips; and on a
category with no links at all the first click raises a NameError instead
of skipping silently. -/
theorem c1_stale_click_bug :
    resultClickCount
      (download_one_set_of_result_files onlySlotZeroPage "SF-SAC") = 25
    ∧ download_one_set_of_result_files onlySlotZeroPage "PDF"
        = .exn "NameError" :=
  ⟨rfl, rfl⟩

/-- Claim C2: over a simulated result set of pages 1..K (K ≥ 1) the
workflow invokes the per-page file download exactly K times, never
navigates to a page beyond K, and the loop's termination condition is
exactly the failure of the lookup of the link labelled K + 1. -/
theorem c2_pager_terminates (K : Nat) (hK : 1 ≤ K) (a : PyVal)
    (s : Option String) (d1 d2 : PyDate)
    (src : Nat → List ChromeDownloadItem) :
    ((download_files_from_fac a s d1 d2 K src).trace).countP isDownloadAll = K
    ∧ (∀ p, FacStep.navigate p ∈ (download_files_from_fac a s d1 d2 K src).trace
        → p ≤ K)
    ∧ get_next_pager_link K K = none := by
  rw [fac_run_trace]
  refine ⟨?_, ?_, ?_⟩
  · rw [List.countP_append, fac_form_steps_no_download]
    unfold fac_pager_trace
    rw [List.countP_cons, fac_pager_loop_count K K 1 (by omega)]
    simp [isDownloadAll]
    omega
  · intro p hp
    rw [List.mem_append] at hp
    rcases hp with hp | hp
    · exact absurd hp (navigate_not_in_form a s d1 d2 p)
    · unfold fac_pager_trace at hp
      rw [List.mem_cons] at hp
      rcases hp with hp | hp
      · exact absurd hp (by simp)
      · obtain ⟨q, hq, _, h2⟩ := fac_pager_loop_mem K K 1 _ hp
        rcases hq with hq | hq
        · injection hq with hpq
          omega
        · exact absurd hq (by simp)
  · unfold get_next_pager_link
    rw [if_neg (by omega)]

/-- Witness for C2 at K = 3: exactly three download invocations and the
page-4 lookup fails. -/
theorem c2_witness :
    ((download_files_from_fac PyVal.pynone Option.none ⟨2020, 1, 10⟩
        ⟨2020, 1, 10⟩ 3 (fun _ => [])).trace).countP isDownloadAll = 3
    ∧ get_next_pager_link 3 3 = none := by
  have h := c2_pager_terminates 3 (by omega) PyVal.pynone Option.none
    ⟨2020, 1, 10⟩ ⟨2020, 1, 10⟩ (fun _ => [])
  exact ⟨h.1, h.2.2⟩

/-- Claim C3: when the download source never reports all items COMPLETE
during the 500-unit budget, `download_files_from_fac` surfaces the
TimeoutException to the caller — the response is the propagated
exception, not a silent partial or empty result. -/
theorem c3_timeout_surfaces (a : PyVal) (s : Option String) (d1 d2 : PyDate)
    (K : Nat) (src : Nat → List ChromeDownloadItem)
    (h : ∀ t, t ≤ 500 →
      (src t).all (fun e => e.state == "COMPLETE") = false) :
    (download_files_from_fac a s d1 d2 K src).response
      = .error "TimeoutException" := by
  have hw := wait_never_complete src 500 0 (fun u _ hu2 => h u (by omega))
  exact (fac_run_wait_error a s d1 d2 K src _ hw).2

/-- Witness for C3 with a single download that stays IN_PROGRESS
forever. -/
theorem c3_witness :
    (download_files_from_fac PyVal.pynone Option.none ⟨2020, 1, 10⟩
        ⟨2020, 1, 10⟩ 1
        (fun _ => [⟨"IN_PROGRESS", "file:///tmp/x.pdf"⟩])).response
      = .error "TimeoutException" :=
  c3_timeout_surfaces PyVal.pynone Option.none ⟨2020, 1, 10⟩ ⟨2020, 1, 10⟩ 1
    (fun _ => [⟨"IN_PROGRESS", "file:///tmp/x.pdf"⟩]) (fun _ _ => rfl)

/-- Claim C8: when the download source first reports all items COMPLETE
(with at least one item) at poll n within the 500-poll budget, the waiter
returns the file URLs of all completed items at poll n, without waiting
for further polls. -/
theorem c8_wait_returns_at_first_complete
    (src : Nat → List ChromeDownloadItem) (n : Nat) (hn : n ≤ 500)
    (hall : (src n).all (fun e => e.state == "COMPLETE") = true)
    (hne : (src n).isEmpty = false)
    (hbefore : ∀ m, m < n →
      ((src m).all (fun e => e.state == "COMPLETE") = false
        ∨ (src m).isEmpty = true)) :
    webdriver_wait_until src 500 0
      = .ok (n, (src n).map (fun e => e.fileUrl)) :=
  wait_reaches_first_truthy src n hall hne 500 0 (by omega) (by omega)
    (fun m _ hm2 => hbefore m hm2)

/-- The C8 witness source: both downloads complete from poll 3 on. -/
def w8src : Nat → List ChromeDownloadItem := fun t =>
  if t < 3 then [⟨"IN_PROGRESS", "file:///downloads/a.xls"⟩]
  else [⟨"COMPLETE", "file:///downloads/a.xls"⟩,
        ⟨"COMPLETE", "file:///downloads/b.pdf"⟩]

/-- Witness for C8: the waiter returns both file URLs at poll 3. -/
theorem c8_witness :
    webdriver_wait_until w8src 500 0
      = .ok (3, ["file:///downloads/a.xls", "file:///downloads/b.pdf"]) :=
  c8_wait_returns_at_first_complete w8src 3 (by omega) (by decide) (by decide)
    (fun m hm => Or.inl (by
      have hsrc : w8src m = [⟨"IN_PROGRESS", "file:///downloads/a.xls"⟩] := by
        unfold w8src
        rw [if_pos hm]
      rw [hsrc]
      rfl))

/-- Claim C4 (amended): `driver.quit()` runs exactly on the successful
exit path of `download_files_from_fac` — the path list returned by the
waiter is necessarily non-empty, so success always quits, while the
timeout-failure path propagates the exception without quitting. -/
theorem c4_quit_iff_success (a : PyVal) (s : Option String) (d1 d2 : PyDate)
    (K : Nat) (src : Nat → List ChromeDownloadItem) :
    (download_files_from_fac a s d1 d2 K src).quitCalled = true
      ↔ (download_files_from_fac a s d1 d2 K src).response
          = .ok "Your download has completed." := by
  cases hw : webdriver_wait_until src 500 0 with
  | error e =>
    obtain ⟨h1, h2⟩ := fac_run_wait_error a s d1 d2 K src e hw
    rw [h1, h2]
    constructor <;> intro hc <;> simp at hc
  | ok p =>
    obtain ⟨u, l⟩ := p
    obtain ⟨h1, h2⟩ := fac_run_wait_ok a s d1 d2 K src u l hw
    rw [h1, h2]
    rw [wait_ok_nonempty src 500 0 u l hw]
    simp

/-- The C4 counterexample source: the single download never completes. -/
def c4src : Nat → List ChromeDownloadItem :=
  fun _ => [⟨"IN_PROGRESS", "file:///tmp/x.pdf"⟩]

/-- Counterexample to C4 as stated: with a never-completing download the
call exits by propagating the TimeoutException and `driver.quit()` is
never reached, leaking the browser process. -/
theorem c4_counterexample :
    (download_files_from_fac PyVal.pynone Option.none ⟨2020, 1, 10⟩
        ⟨2020, 1, 10⟩ 1 c4src).quitCalled = false
    ∧ (download_files_from_fac PyVal.pynone Option.none ⟨2020, 1, 10⟩
        ⟨2020, 1, 10⟩ 1 c4src).response = .error "TimeoutException" := by
  have hw : webdriver_wait_until c4src 500 0 = .error "TimeoutException" :=
    wait_never_complete c4src 500 0 (fun _ _ _ => rfl)
  exact fac_run_wait_error PyVal.pynone Option.none ⟨2020, 1, 10⟩
    ⟨2020, 1, 10⟩ 1 c4src _ hw

set_option maxRecDepth 10000 in
/-- Counterexample to C5 as stated: calling the workflow with the
non-matching agency string "xx" reaches the network (the search page is
fetched) and no validation failure is ever raised — validation does not
fail before network interaction; it never happens at all. -/
theorem c5_counterexample :
    FacStep.netGet FAC_URL
      ∈ (download_files_from_fac (PyVal.str "xx") Option.none
          ⟨2020, 3, 15⟩ ⟨2020, 3, 15⟩ 1 (fun _ => [])).trace
    ∧ ((download_files_from_fac (PyVal.str "xx") Option.none
          ⟨2020, 3, 15⟩ ⟨2020, 3, 15⟩ 1
          (fun _ => [])).trace).countP isValidationFailure = 0
    ∧ FacStep.selectByValue "cfdaPrefix" "xx"
      ∈ (download_files_from_fac (PyVal.str "xx") Option.none
          ⟨2020, 3, 15⟩ ⟨2020, 3, 15⟩ 1 (fun _ => [])).trace := by
  rw [fac_run_trace]
  refine ⟨by decide, by decide, by decide⟩

/-- Claim C5 (amended): `download_files_from_fac` performs no agency-code
validation whatsoever — no run of it, whatever the arguments, contains a
validation failure; the network fetch of the search page occurs
unconditionally; the normalised agency code (any string is kept verbatim,
`None` and non-strings silently become the default "20") is passed
straight to the remote CFDA selector. -/
theorem c5_no_validation_before_network (a : PyVal) (s : Option String)
    (d1 d2 : PyDate) (K : Nat) (src : Nat → List ChromeDownloadItem) :
    ((download_files_from_fac a s d1 d2 K src).trace).countP
        isValidationFailure = 0
    ∧ FacStep.netGet FAC_URL ∈ (download_files_from_fac a s d1 d2 K src).trace
    ∧ FacStep.selectByValue "cfdaPrefix" (normalize_agency_code a)
        ∈ (download_files_from_fac a s d1 d2 K src).trace
    ∧ (∀ p : String, normalize_agency_code (.str p) = p)
    ∧ normalize_agency_code .pynone = "20"
    ∧ normalize_agency_code (.intval 7) = "20" := by
  rw [fac_run_trace]
  refine ⟨?_, ?_, ?_, fun p => rfl, rfl, rfl⟩
  · rw [List.countP_append, fac_form_steps_no_validation]
    unfold fac_pager_trace
    rw [List.countP_cons]
    have hloop : (fac_pager_loop K K 1).countP isValidationFailure = 0 := by
      rw [List.countP_eq_zero]
      intro st hst
      obtain ⟨q, hq, _, _⟩ := fac_pager_loop_mem K K 1 st hst
      rcases hq with rfl | rfl <;> simp [isValidationFailure]
    rw [hloop]
    simp [isValidationFailure]
  · rw [List.mem_append]
    left
    simp [fac_form_steps]
  · rw [List.mem_append]
    left
    simp [fac_form_steps]

set_option maxRecDepth 10000 in
/-- Claim C9 evaluation at the failing input (the `end_date=date.today()`
default argument is evaluated once, at module import): with views.py
imported on 2020-03-15 and `download_files_from_fac` called on
2020-03-16, the dateFrom field receives 12/16/2019 — import day minus 90
— although today minus 90 days is 12/17/2019; dateTo does receive
yesterday, 03/15/2020, as claimed. -/
theorem c9_stale_default_from_date :
    FacStep.sendKeys "MainContent_UcSearchFilters_DateProcessedControl_FromDate"
        "12/16/2019"
      ∈ (download_files_from_fac PyVal.pynone Option.none
          ⟨2020, 3, 15⟩ ⟨2020, 3, 16⟩ 1 (fun _ => [])).trace
    ∧ FacStep.sendKeys "MainContent_UcSearchFilters_DateProcessedControl_FromDate"
        "12/17/2019"
      ∉ (download_files_from_fac PyVal.pynone Option.none
          ⟨2020, 3, 15⟩ ⟨2020, 3, 16⟩ 1 (fun _ => [])).trace
    ∧ _calculate_start_date 90 ⟨2020, 3, 16⟩ = "12/17/2019"
    ∧ FacStep.sendKeys "MainContent_UcSearchFilters_DateProcessedControl_ToDate"
        "03/15/2020"
      ∈ (download_files_from_fac PyVal.pynone Option.none
          ⟨2020, 3, 15⟩ ⟨2020, 3, 16⟩ 1 (fun _ => [])).trace := by
  rw [fac_run_trace]
  exact ⟨by decide, by decide, by decide, by decide⟩

theorem filter_filter_length (df : List GenRow) (A B : GenRow → Bool) :
    ((df.filter A).filter B).length
      = df.countP (fun r => A r && B r) := by
  rw [List.filter_filter, ← List.countP_eq_length_filter]
  congr 1
  funext a
  exact Bool.and_comm _ _

/-- Claim C7: `derive_agency_highlights` computes `cognizant_sum` as the
number of table rows whose cognizant-agency code equals the requested
agency code and `findings` as the number of those rows whose findings
flag is 'Y'; in particular on the fixed ten-row table with three "20"
rows, two of them flagged, it returns cognizant_sum = 3 and
findings = 2. -/
theorem c7_derive_agency_highlights :
    (∀ (p : String) (df : List GenRow),
      (derive_agency_highlights p df).cognizant_sum
          = df.countP (fun r => r.cogagency == p)
      ∧ (derive_agency_highlights p df).findings
          = df.countP (fun r => r.cogagency == p && r.cyfindings == "Y"))
    ∧ (derive_agency_highlights "20" sampleGenTable).cognizant_sum = 3
    ∧ (derive_agency_highlights "20" sampleGenTable).findings = 2 := by
  refine ⟨?_, by decide, by decide⟩
  intro p df
  constructor
  · show (filter_general_table_by_agency p df).length = _
    unfold filter_general_table_by_agency
    exact (List.countP_eq_length_filter _ _).symm
  · show (get_findings_rows (filter_general_table_by_agency p df)).length = _
    unfold get_findings_rows filter_general_table_by_agency
    exact filter_filter_length df _ _

/-- Claim C10: `validate_cfda_number` rejects exactly the integers whose
decimal string representation has length other than 5; consequently every
integer in 10000..99999 is accepted, and so is every negative four-digit
integer (a minus sign plus four digits); `Grant.cfda` carries no other
validator. -/
theorem c10_validate_cfda_number :
    (∀ n : Int, validate_cfda_number n = .ok () ↔ (pyStr n).length = 5)
    ∧ (∀ n : Int, 10000 ≤ n → n ≤ 99999 →
        validate_cfda_number n = .ok ())
    ∧ (∀ n : Int, -9999 ≤ n → n ≤ -1000 →
        validate_cfda_number n = .ok ())
    ∧ grant_cfda_validators = [validate_cfda_number] := by
  have hok : ∀ n : Int, (pyStr n).length = 5 →
      validate_cfda_number n = .ok () := by
    intro n h
    unfold validate_cfda_number
    rw [if_neg (by omega)]
  refine ⟨?_, ?_, ?_, rfl⟩
  · intro n
    constructor
    · intro h
      by_cases hl : (pyStr n).length = 5
      · exact hl
      · unfold validate_cfda_number at h
        rw [if_pos hl] at h
        exact absurd h (by simp)
    · exact hok n
  · intro n h1 h2
    apply hok
    rw [pyStr_length_nonneg n (by omega)]
    exact natDigits_len_5 n.toNat (by omega) (by omega)
  · intro n h1 h2
    apply hok
    rw [pyStr_length_neg n (by omega)]
    rw [natDigits_len_4 n.natAbs (by omega) (by omega)]

/-- Witness for C10: 12345 (five digits) and -1234 (minus sign plus four
digits) are both accepted by the validator. -/
theorem c10_witness :
    validate_cfda_number 12345 = .ok ()
    ∧ validate_cfda_number (-1234) = .ok () :=
  ⟨c10_validate_cfda_number.2.1 12345 (by omega) (by omega),
   c10_validate_cfda_number.2.2.1 (-1234) (by omega) (by omega)⟩
